import Mathlib

/-!
Verification of the smooth-scroll physics engine of `src/main.js`.

The engine keeps a mutable record `state.scroll` with fields
`y` (eased position), `target`, `limit`, `ease` (0.08) and `velocity`,
plus the process-wide published signals `window.__SCROLL_MOMENTUM`
and `window.__GLOBAL_PROGRESS`.  Input handlers (wheel, keydown,
touchstart/touchmove), the resize handler `calculateBounds`, the
loader completion (`state.isLoaded = true`) and the per-frame loop
`fluidScrollRender` are embedded below as pure transition functions on
a state record over `ℚ`; a run of the system is a fold of events over
the initial state.  The rewind button's tween (a GSAP `gsap.to` with
the `expo.inOut` ease) is embedded separately over `ℝ`.
-/

/-- Keys handled by the keydown handler of `initSmoothScroll`
(src/main.js lines 132-148); `other` stands for any key not named in
the switch statement. -/
inductive Key where
  | arrowDown
  | arrowUp
  | pageDown
  | space
  | pageUp
  | home
  | keyEnd
  | other
deriving DecidableEq

/-- The mutable state of the scroll engine: `state.isLoaded`, the
`state.scroll` record, the two published globals, the `touchY` tracker
of the touch handlers, and the current `window.innerHeight` (read by
`calculateBounds` and the PageDown/PageUp/space key amounts). -/
structure SysState where
  isLoaded : Bool
  y : ℚ
  target : ℚ
  limit : ℚ
  ease : ℚ
  velocity : ℚ
  momentum : ℚ
  progress : ℚ
  touchY : ℚ
  innerHeight : ℚ
deriving DecidableEq

/-- Boot state: the literal `state` object of src/main.js lines 10-22
(`y = target = limit = velocity = 0`, `ease = 0.08`), the globals
`__SCROLL_MOMENTUM = __GLOBAL_PROGRESS = 0` (lines 7-8), `isLoaded =
false`.  Viewport metrics arrive through resize events. -/
def initState : SysState :=
  { isLoaded := false, y := 0, target := 0, limit := 0, ease := 2/25,
    velocity := 0, momentum := 0, progress := 0, touchY := 0, innerHeight := 0 }

/-- The clamp pattern `Math.max(0, Math.min(t, lim))` used by every
input handler. -/
def clamp0 (t lim : ℚ) : ℚ := max 0 (min t lim)

/-- Wheel handler (src/main.js lines 117-129): guarded by `isLoaded`;
`delta = e.deltaY`, multiplied by 40 when `e.deltaMode === 1` (line
units); then `target += delta` and clamp.  No `preventDefault`. -/
def wheelStep (deltaY : ℚ) (deltaMode : ℕ) (s : SysState) : SysState :=
  if s.isLoaded then
    let delta := if deltaMode = 1 then deltaY * 40 else deltaY
    { s with target := clamp0 (s.target + delta) s.limit }
  else s

/-- Keydown handler (src/main.js lines 132-148): guarded by `isLoaded`.
The switch sets `amount` for ArrowDown (+100), ArrowUp (-100),
PageDown and space (`innerHeight * 0.8`), PageUp (negated), and for
Home and End assigns `target` directly (0 resp. `limit`, unclamped).
Only when `amount !== 0` is `target` updated, clamped, and
`e.preventDefault()` called; the second component records whether
`preventDefault` ran. -/
def keydownStep (k : Key) (s : SysState) : SysState × Bool :=
  if s.isLoaded then
    let amount : ℚ :=
      match k with
      | .arrowDown => 100
      | .arrowUp => -100
      | .pageDown => s.innerHeight * (4/5)
      | .space => s.innerHeight * (4/5)
      | .pageUp => -(s.innerHeight * (4/5))
      | _ => 0
    let s1 :=
      match k with
      | .home => { s with target := 0 }
      | .keyEnd => { s with target := s.limit }
      | _ => s
    if amount ≠ 0 then
      ({ s1 with target := clamp0 (s1.target + amount) s1.limit }, true)
    else (s1, false)
  else (s, false)

/-- Touchstart handler (src/main.js lines 152-154): records the touch
Y coordinate; not guarded by `isLoaded`. -/
def touchstartStep (clientY : ℚ) (s : SysState) : SysState :=
  { s with touchY := clientY }

/-- Touchmove handler (src/main.js lines 156-163): guarded by
`isLoaded`; `deltaY = touchY - clientY`, `touchY` updated, then
`target += deltaY * 2.5` and clamp. -/
def touchmoveStep (clientY : ℚ) (s : SysState) : SysState :=
  if s.isLoaded then
    let deltaY := s.touchY - clientY
    { s with touchY := clientY,
             target := clamp0 (s.target + deltaY * (5/2)) s.limit }
  else s

/-- The resize handler `calculateBounds` (src/main.js lines 106-110,
also re-run by the ScrollTrigger refresh listener, lines 219-221):
`limit = scrollContent.getBoundingClientRect().height -
window.innerHeight`.  The event carries the current content height and
viewport height; the viewport height is also stored since the keydown
handler reads it. -/
def resizeStep (contentHeight viewportHeight : ℚ) (s : SysState) : SysState :=
  { s with innerHeight := viewportHeight,
           limit := contentHeight - viewportHeight }

/-- Loader completion (src/main.js line 290): `state.isLoaded = true`. -/
def loadStep (s : SysState) : SysState :=
  { s with isLoaded := true }

/-- One tick of `fluidScrollRender` (src/main.js lines 166-201):
`y += (target - y) * ease`; `velocity = target - y` (post-update);
`__SCROLL_MOMENTUM = velocity`; and only when `limit > 0`,
`__GLOBAL_PROGRESS = Math.max(0, Math.min(1, y / limit))`.
No bounds recomputation and no clamping of `target` happen here. -/
def frame (s : SysState) : SysState :=
  let y1 := s.y + (s.target - s.y) * s.ease
  let vel := s.target - y1
  let progress1 := if 0 < s.limit then max 0 (min 1 (y1 / s.limit)) else s.progress
  { s with y := y1, velocity := vel, momentum := vel, progress := progress1 }

/-- Events driving the engine: the three input kinds, layout resize,
loader completion, and one animation-frame tick. -/
inductive Ev where
  | wheel (deltaY : ℚ) (deltaMode : ℕ)
  | keydown (k : Key)
  | touchstart (clientY : ℚ)
  | touchmove (clientY : ℚ)
  | resize (contentHeight viewportHeight : ℚ)
  | load
  | frame
deriving DecidableEq

/-- Transition of one event. -/
def step (e : Ev) (s : SysState) : SysState :=
  match e with
  | .wheel d m => wheelStep d m s
  | .keydown k => (keydownStep k s).1
  | .touchstart c => touchstartStep c s
  | .touchmove c => touchmoveStep c s
  | .resize c v => resizeStep c v s
  | .load => loadStep s
  | .frame => frame s

/-- State reached after a sequence of events from boot. -/
def run (es : List Ev) : SysState :=
  es.foldl (fun s e => step e s) initState

/-- Events that apply a scroll delta to `target` (a wheel event, a
handled non-trivial key, a touchmove). -/
def isScrollInput : Ev → Bool
  | .wheel _ _ => true
  | .keydown k => k ≠ Key.other
  | .touchmove _ => true
  | _ => false

/-- A loaded state with typical metrics, used to instantiate theorems
with hypotheses at a concrete input. -/
def sampleLoaded : SysState :=
  { isLoaded := true, y := 0, target := 800, limit := 1000, ease := 2/25,
    velocity := 0, momentum := 0, progress := 0, touchY := 0, innerHeight := 800 }

lemma frame_y (s : SysState) : (frame s).y = s.y + (s.target - s.y) * s.ease := rfl

lemma frame_target (s : SysState) : (frame s).target = s.target := rfl

lemma frame_ease (s : SysState) : (frame s).ease = s.ease := rfl

lemma frame_limit (s : SysState) : (frame s).limit = s.limit := rfl

lemma frame_iter_target (s : SysState) (n : ℕ) : (frame^[n] s).target = s.target := by
  induction n with
  | zero => rfl
  | succ n ih => rw [Function.iterate_succ_apply', frame_target, ih]

lemma frame_iter_ease (s : SysState) (n : ℕ) : (frame^[n] s).ease = s.ease := by
  induction n with
  | zero => rfl
  | succ n ih => rw [Function.iterate_succ_apply', frame_ease, ih]

lemma frame_iter_limit (s : SysState) (n : ℕ) : (frame^[n] s).limit = s.limit := by
  induction n with
  | zero => rfl
  | succ n ih => rw [Function.iterate_succ_apply', frame_limit, ih]

/-- Closed form of the exponential smoothing: after `n` frames with no
input, the position is `target - (target - y) * (1 - ease) ^ n`. -/
lemma frame_iter_y (s : SysState) (n : ℕ) :
    (frame^[n] s).y = s.target - (s.target - s.y) * (1 - s.ease) ^ n := by
  induction n with
  | zero => simp
  | succ n ih =>
    rw [Function.iterate_succ_apply', frame_y, frame_iter_target, frame_iter_ease, ih]
    ring

lemma run_append (es fs : List Ev) :
    run (es ++ fs) = fs.foldl (fun s e => step e s) (run es) := by
  simp [run, List.foldl_append]

lemma foldl_replicate_frame (n : ℕ) (s : SysState) :
    (List.replicate n Ev.frame).foldl (fun s e => step e s) s = frame^[n] s := by
  induction n generalizing s with
  | zero => rfl
  | succ n ih =>
    rw [List.replicate_succ, List.foldl_cons, ih, Function.iterate_succ_apply]
    rfl

lemma clamp0_nonneg (t lim : ℚ) : 0 ≤ clamp0 t lim := le_max_left 0 _

lemma clamp0_le_limit (t lim : ℚ) (h : 0 ≤ lim) : clamp0 t lim ≤ lim :=
  max_le h (min_le_right t lim)

/-- C1 (counterexample): in the spec scenario (limit 1000, ease 0.08,
one pixel-mode wheel delta of +500, one tick giving position 40 and
velocity 460), 50 further ticks leave the position about 7.1 pixels
short of 500, not within 1e-3 of it. -/
theorem c1_counterexample :
    (run [.resize 1800 800, .load, .wheel 500 0]).target = 500 ∧
    (run [.resize 1800 800, .load, .wheel 500 0, .frame]).y = 40 ∧
    (run [.resize 1800 800, .load, .wheel 500 0, .frame]).velocity = 460 ∧
    ¬ |(run ([.resize 1800 800, .load, .wheel 500 0] ++ List.replicate 51 .frame)).y - 500|
        < 1/1000 := by
  refine ⟨?_, ?_, ?_, ?_⟩
  · norm_num [run, step, wheelStep, keydownStep, touchstartStep, touchmoveStep,
      resizeStep, loadStep, frame, clamp0, initState, max_def, min_def]
  · norm_num [run, step, wheelStep, keydownStep, touchstartStep, touchmoveStep,
      resizeStep, loadStep, frame, clamp0, initState, max_def, min_def]
  · norm_num [run, step, wheelStep, keydownStep, touchstartStep, touchmoveStep,
      resizeStep, loadStep, frame, clamp0, initState, max_def, min_def]
  · rw [run_append, foldl_replicate_frame, frame_iter_y]
    have h1 : (run [.resize 1800 800, .load, .wheel 500 0]).target = 500 := by
      norm_num [run, step, wheelStep, resizeStep, loadStep, clamp0, initState, max_def, min_def]
    have h2 : (run [.resize 1800 800, .load, .wheel 500 0]).y = 0 := by
      norm_num [run, step, wheelStep, resizeStep, loadStep, clamp0, initState, max_def, min_def]
    have h3 : (run [.resize 1800 800, .load, .wheel 500 0]).ease = 2/25 := by
      norm_num [run, step, wheelStep, resizeStep, loadStep, clamp0, initState, max_def, min_def]
    rw [h1, h2, h3,
      show (500:ℚ) - (500 - 0) * (1 - 2/25) ^ 51 - 500 = -(500 * (23/25) ^ 51) by ring,
      abs_neg, abs_of_nonneg (by positivity)]
    norm_num

/-- C1 (amended): in that scenario the wheel delta indeed makes
`target = 500`, one tick gives `position = 40` and `velocity = 460`,
but 50 further ticks only bring the position within 8 of 500; the
position is within 1e-3 of 500 after 157 further ticks (158 in all). -/
theorem c1_amended :
    (run [.resize 1800 800, .load, .wheel 500 0]).target = 500 ∧
    (run [.resize 1800 800, .load, .wheel 500 0, .frame]).y = 40 ∧
    (run [.resize 1800 800, .load, .wheel 500 0, .frame]).velocity = 460 ∧
    |(run ([.resize 1800 800, .load, .wheel 500 0] ++ List.replicate 51 .frame)).y - 500| < 8 ∧
    |(run ([.resize 1800 800, .load, .wheel 500 0] ++ List.replicate 158 .frame)).y - 500|
      < 1/1000 := by
  have h1 : (run [.resize 1800 800, .load, .wheel 500 0]).target = 500 := by
    norm_num [run, step, wheelStep, resizeStep, loadStep, clamp0, initState, max_def, min_def]
  have h2 : (run [.resize 1800 800, .load, .wheel 500 0]).y = 0 := by
    norm_num [run, step, wheelStep, resizeStep, loadStep, clamp0, initState, max_def, min_def]
  have h3 : (run [.resize 1800 800, .load, .wheel 500 0]).ease = 2/25 := by
    norm_num [run, step, wheelStep, resizeStep, loadStep, clamp0, initState, max_def, min_def]
  refine ⟨h1, ?_, ?_, ?_, ?_⟩
  · norm_num [run, step, wheelStep, keydownStep, touchstartStep, touchmoveStep,
      resizeStep, loadStep, frame, clamp0, initState, max_def, min_def]
  · norm_num [run, step, wheelStep, keydownStep, touchstartStep, touchmoveStep,
      resizeStep, loadStep, frame, clamp0, initState, max_def, min_def]
  · rw [run_append, foldl_replicate_frame, frame_iter_y, h1, h2, h3,
      show (500:ℚ) - (500 - 0) * (1 - 2/25) ^ 51 - 500 = -(500 * (23/25) ^ 51) by ring,
      abs_neg, abs_of_nonneg (by positivity)]
    norm_num
  · rw [run_append, foldl_replicate_frame, frame_iter_y, h1, h2, h3,
      show (500:ℚ) - (500 - 0) * (1 - 2/25) ^ 158 - 500 = -(500 * (23/25) ^ 158) by ring,
      abs_neg, abs_of_nonneg (by positivity)]
    norm_num

/-- C2 (counterexample): after the limit shrinks from 1000 to 300
while `target = 800`, the next frame does not clamp `target` (it stays
at 800, above the limit), and six frames later the position itself has
integrated past the new limit. -/
theorem c2_counterexample :
    (run ([.resize 1300 300, .load, .wheel 800 0, .resize 600 300] ++ [.frame])).target = 800 ∧
    (run ([.resize 1300 300, .load, .wheel 800 0, .resize 600 300] ++ [.frame])).limit = 300 ∧
    ¬ (run ([.resize 1300 300, .load, .wheel 800 0, .resize 600 300] ++ [.frame])).target
        ≤ (run ([.resize 1300 300, .load, .wheel 800 0, .resize 600 300] ++ [.frame])).limit ∧
    (run ([.resize 1300 300, .load, .wheel 800 0, .resize 600 300]
        ++ List.replicate 6 .frame)).limit
      < (run ([.resize 1300 300, .load, .wheel 800 0, .resize 600 300]
        ++ List.replicate 6 .frame)).y := by
  have h1 : (run [.resize 1300 300, .load, .wheel 800 0, .resize 600 300]).target = 800 := by
    norm_num [run, step, wheelStep, resizeStep, loadStep, clamp0, initState, max_def, min_def]
  have h2 : (run [.resize 1300 300, .load, .wheel 800 0, .resize 600 300]).y = 0 := by
    norm_num [run, step, wheelStep, resizeStep, loadStep, clamp0, initState, max_def, min_def]
  have h3 : (run [.resize 1300 300, .load, .wheel 800 0, .resize 600 300]).ease = 2/25 := by
    norm_num [run, step, wheelStep, resizeStep, loadStep, clamp0, initState, max_def, min_def]
  have h4 : (run [.resize 1300 300, .load, .wheel 800 0, .resize 600 300]).limit = 300 := by
    norm_num [run, step, wheelStep, resizeStep, loadStep, clamp0, initState, max_def, min_def]
  refine ⟨?_, ?_, ?_, ?_⟩
  · rw [run_append]
    show (frame (run [.resize 1300 300, .load, .wheel 800 0, .resize 600 300])).target = 800
    rw [frame_target, h1]
  · rw [run_append]
    show (frame (run [.resize 1300 300, .load, .wheel 800 0, .resize 600 300])).limit = 300
    rw [frame_limit, h4]
  · rw [run_append]
    show ¬ (frame (run [.resize 1300 300, .load, .wheel 800 0, .resize 600 300])).target
        ≤ (frame (run [.resize 1300 300, .load, .wheel 800 0, .resize 600 300])).limit
    rw [frame_target, frame_limit, h1, h4]
    norm_num
  · rw [run_append, foldl_replicate_frame, frame_iter_y, frame_iter_limit, h1, h2, h3, h4]
    norm_num

/-- C2 (amended): the frame itself recomputes nothing and clamps
nothing — it preserves both `limit` and `target`; `target` is clamped
down to the (possibly shrunk) current limit only by the next input
update, here a wheel event. -/
theorem c2_amended (s : SysState) (d : ℚ) (m : ℕ)
    (hL : s.isLoaded = true) (hlim : 0 ≤ s.limit) :
    (frame s).limit = s.limit ∧ (frame s).target = s.target ∧
    0 ≤ (wheelStep d m s).target ∧ (wheelStep d m s).target ≤ s.limit := by
  refine ⟨rfl, rfl, ?_, ?_⟩
  · simp only [wheelStep, hL, if_true]
    exact clamp0_nonneg _ _
  · simp only [wheelStep, hL, if_true]
    exact clamp0_le_limit _ _ hlim

/-- C2 (witness): the amended statement instantiated at a loaded state
with limit 1000 and a wheel delta of 500. -/
theorem c2_witness :
    (frame sampleLoaded).limit = sampleLoaded.limit ∧
    (frame sampleLoaded).target = sampleLoaded.target ∧
    0 ≤ (wheelStep 500 0 sampleLoaded).target ∧
    (wheelStep 500 0 sampleLoaded).target ≤ sampleLoaded.limit :=
  c2_amended sampleLoaded 500 0 rfl (by norm_num [sampleLoaded])

/-- C6 (counterexample): when the limit is negative (content shorter
than the viewport, limit = 100 - 200 = -100), a wheel update clamps
`target` to 0, which is not below the limit, so the claimed invariant
`0 ≤ target ≤ limit` fails after that update. -/
theorem c6_counterexample :
    (run [.resize 100 200, .load, .wheel 50 0]).target = 0 ∧
    (run [.resize 100 200, .load, .wheel 50 0]).limit = -100 ∧
    ¬ (run [.resize 100 200, .load, .wheel 50 0]).target
        ≤ (run [.resize 100 200, .load, .wheel 50 0]).limit := by
  refine ⟨?_, ?_, ?_⟩ <;>
    norm_num [run, step, wheelStep, resizeStep, loadStep, clamp0, initState, max_def, min_def]

/-- C6 (amended): after any single scroll-input update (wheel, a
handled key other than the no-op case, or a touchmove) applied to a
loaded state whose current limit is nonnegative and whose viewport
height is positive, `0 ≤ target ≤ limit` holds; since this is shown
for an arbitrary prior state, it holds after every such update of any
event sequence, including right after a limit shrink. -/
theorem c6_amended (s : SysState) (e : Ev) (hL : s.isLoaded = true)
    (hlim : 0 ≤ s.limit) (hvh : 0 < s.innerHeight) (he : isScrollInput e = true) :
    0 ≤ (step e s).target ∧ (step e s).target ≤ (step e s).limit := by
  have hamt : s.innerHeight * (4/5) ≠ 0 := by positivity
  cases e with
  | wheel d m =>
    simp only [step, wheelStep, hL, if_true]
    exact ⟨clamp0_nonneg _ _, clamp0_le_limit _ _ hlim⟩
  | keydown k =>
    cases k with
    | home =>
      simp only [step, keydownStep, hL, if_true]
      norm_num
      exact hlim
    | keyEnd =>
      simp only [step, keydownStep, hL, if_true]
      norm_num
      exact hlim
    | other => simp [isScrollInput] at he
    | arrowDown =>
      simp only [step, keydownStep, hL, if_true]
      norm_num
      exact ⟨clamp0_nonneg _ _, clamp0_le_limit _ _ hlim⟩
    | arrowUp =>
      simp only [step, keydownStep, hL, if_true]
      norm_num
      exact ⟨clamp0_nonneg _ _, clamp0_le_limit _ _ hlim⟩
    | pageDown =>
      simp only [step, keydownStep, hL, if_true, if_pos hamt]
      exact ⟨clamp0_nonneg _ _, clamp0_le_limit _ _ hlim⟩
    | space =>
      simp only [step, keydownStep, hL, if_true, if_pos hamt]
      exact ⟨clamp0_nonneg _ _, clamp0_le_limit _ _ hlim⟩
    | pageUp =>
      have hamt2 : -(s.innerHeight * (4/5)) ≠ 0 := by simpa using hamt
      simp only [step, keydownStep, hL, if_true, if_pos hamt2]
      exact ⟨clamp0_nonneg _ _, clamp0_le_limit _ _ hlim⟩
  | touchmove c =>
    simp only [step, touchmoveStep, hL, if_true]
    exact ⟨clamp0_nonneg _ _, clamp0_le_limit _ _ hlim⟩
  | touchstart c => simp [isScrollInput] at he
  | resize c v => simp [isScrollInput] at he
  | load => simp [isScrollInput] at he
  | frame => simp [isScrollInput] at he

/-- C6 (witness): the amended invariant instantiated at a loaded state
with limit 1000 and a wheel delta of 500. -/
theorem c6_witness :
    0 ≤ (step (Ev.wheel 500 0) sampleLoaded).target ∧
    (step (Ev.wheel 500 0) sampleLoaded).target ≤ (step (Ev.wheel 500 0) sampleLoaded).limit :=
  c6_amended sampleLoaded (Ev.wheel 500 0) rfl (by norm_num [sampleLoaded])
    (by norm_num [sampleLoaded]) rfl

/-- C7 (confirmed): after a frame, `velocity` is exactly `target`
minus the freshly updated position, equal to `(1 - ease)` times the
pre-update error; it is positive exactly when the target is still
ahead, negative exactly when behind, and zero at rest. -/
theorem c7_velocity (s : SysState) :
    (frame s).velocity = (frame s).target - (frame s).y ∧
    (frame s).velocity = (1 - s.ease) * (s.target - s.y) ∧
    (0 < (frame s).velocity ↔ (frame s).y < (frame s).target) ∧
    ((frame s).velocity < 0 ↔ (frame s).target < (frame s).y) ∧
    (s.target = s.y → (frame s).velocity = 0) := by
  refine ⟨rfl, ?_, ?_, ?_, ?_⟩
  · show s.target - (s.y + (s.target - s.y) * s.ease) = (1 - s.ease) * (s.target - s.y)
    ring
  · exact sub_pos
  · exact sub_neg
  · intro h
    show s.target - (s.y + (s.target - s.y) * s.ease) = 0
    rw [h]
    ring

/-- C7 (witness): the velocity facts at a concrete resting state
(target = position = 0). -/
theorem c7_witness :
    (frame { sampleLoaded with target := 0 }).velocity = 0 :=
  (c7_velocity { sampleLoaded with target := 0 }).2.2.2.2 rfl

/-- C9 (confirmed): one frame of `fluidScrollRender` leaves `target`,
`limit`, `ease` — and also the load flag, touch tracker and viewport
height — unchanged; it mutates only the position, the velocity and the
published signals. -/
theorem c9_frame_preserves (s : SysState) :
    (frame s).target = s.target ∧ (frame s).limit = s.limit ∧
    (frame s).ease = s.ease ∧ (frame s).isLoaded = s.isLoaded ∧
    (frame s).touchY = s.touchY ∧ (frame s).innerHeight = s.innerHeight :=
  ⟨rfl, rfl, rfl, rfl, rfl, rfl⟩

/-- C10 (confirmed): on a loaded state, the End key assigns
`target := limit` directly with no clamping and reports no
`preventDefault`; when the limit is negative the target hence becomes
negative. -/
theorem c10_end_key (s : SysState) (hL : s.isLoaded = true) :
    (keydownStep Key.keyEnd s).1.target = s.limit ∧
    (keydownStep Key.keyEnd s).2 = false ∧
    (s.limit < 0 → (keydownStep Key.keyEnd s).1.target < 0) := by
  refine ⟨?_, ?_, ?_⟩ <;> simp [keydownStep, hL]

/-- C10 (witness): the End-key behaviour at a concrete loaded state
with limit -100. -/
theorem c10_witness :
    (keydownStep Key.keyEnd { sampleLoaded with limit := -100 }).1.target
      = ({ sampleLoaded with limit := -100 } : SysState).limit ∧
    (keydownStep Key.keyEnd { sampleLoaded with limit := -100 }).2 = false ∧
    (keydownStep Key.keyEnd { sampleLoaded with limit := -100 }).1.target < 0 :=
  ⟨(c10_end_key { sampleLoaded with limit := -100 } rfl).1,
   (c10_end_key { sampleLoaded with limit := -100 } rfl).2.1,
   (c10_end_key { sampleLoaded with limit := -100 } rfl).2.2 (by norm_num [sampleLoaded])⟩

lemma wheelStep_progress (d : ℚ) (m : ℕ) (s : SysState) :
    (wheelStep d m s).progress = s.progress := by
  unfold wheelStep
  split <;> rfl

lemma keydownStep_progress (k : Key) (s : SysState) :
    ((keydownStep k s).1).progress = s.progress := by
  cases k <;> unfold keydownStep <;> dsimp only <;> split <;>
    first
      | rfl
      | (split <;> rfl)

lemma touchmoveStep_progress (c : ℚ) (s : SysState) :
    (touchmoveStep c s).progress = s.progress := by
  unfold touchmoveStep
  split <;> rfl

lemma frame_progress (s : SysState) :
    (frame s).progress
      = if 0 < s.limit
        then max 0 (min 1 ((s.y + (s.target - s.y) * s.ease) / s.limit))
        else s.progress := rfl

/-- Any single event keeps the published progress inside the unit
interval. -/
lemma step_progress_bounds (e : Ev) (s : SysState)
    (h0 : 0 ≤ s.progress) (h1 : s.progress ≤ 1) :
    0 ≤ (step e s).progress ∧ (step e s).progress ≤ 1 := by
  cases e with
  | wheel d m => rw [step, wheelStep_progress]; exact ⟨h0, h1⟩
  | keydown k => rw [step, keydownStep_progress]; exact ⟨h0, h1⟩
  | touchstart c => exact ⟨h0, h1⟩
  | touchmove c => rw [step, touchmoveStep_progress]; exact ⟨h0, h1⟩
  | resize c v => exact ⟨h0, h1⟩
  | load => exact ⟨h0, h1⟩
  | frame =>
    rw [step, frame_progress]
    split
    · exact ⟨le_max_left 0 _, max_le zero_le_one (min_le_left 1 _)⟩
    · exact ⟨h0, h1⟩

lemma foldl_progress_bounds (es : List Ev) (s : SysState)
    (h0 : 0 ≤ s.progress) (h1 : s.progress ≤ 1) :
    0 ≤ (es.foldl (fun s e => step e s) s).progress ∧
    (es.foldl (fun s e => step e s) s).progress ≤ 1 := by
  induction es generalizing s with
  | nil => exact ⟨h0, h1⟩
  | cons e es ih =>
    rw [List.foldl_cons]
    exact ih (step e s) (step_progress_bounds e s h0 h1).1 (step_progress_bounds e s h0 h1).2

/-- C3 (counterexample): scroll to progress 1/25 with limit 1000, then
shrink the content so that limit = -100; the following frame leaves
the published progress at 1/25, so a reachable state has
`limit ≤ 0` with progress nonzero. -/
theorem c3_counterexample :
    (run [.resize 1800 800, .load, .wheel 500 0, .frame, .resize 100 200, .frame]).limit ≤ 0 ∧
    (run [.resize 1800 800, .load, .wheel 500 0, .frame, .resize 100 200, .frame]).progress
      = 1/25 ∧
    ¬ (run [.resize 1800 800, .load, .wheel 500 0, .frame, .resize 100 200, .frame]).progress
        = 0 := by
  refine ⟨?_, ?_, ?_⟩ <;>
    norm_num [run, step, wheelStep, resizeStep, loadStep, frame, clamp0, initState,
      max_def, min_def]

/-- C3 (amended): the published progress is always in [0, 1] in every
reachable state; but when `limit ≤ 0` a frame leaves progress
unchanged (the `limit > 0` branch is skipped) rather than publishing
0, so it keeps the last value published while the limit was positive. -/
theorem c3_amended :
    (∀ es : List Ev, 0 ≤ (run es).progress ∧ (run es).progress ≤ 1) ∧
    ∀ s : SysState, s.limit ≤ 0 → (frame s).progress = s.progress := by
  constructor
  · intro es
    exact foldl_progress_bounds es initState le_rfl zero_le_one
  · intro s h
    rw [frame_progress, if_neg (not_lt.mpr h)]

/-- C3 (witness): the bounds at a concrete run and the frozen-progress
fact at a concrete state with negative limit. -/
theorem c3_witness :
    (0 ≤ (run [.resize 1800 800, .load, .wheel 500 0, .frame]).progress ∧
      (run [.resize 1800 800, .load, .wheel 500 0, .frame]).progress ≤ 1) ∧
    (frame { sampleLoaded with limit := -100 }).progress
      = ({ sampleLoaded with limit := -100 } : SysState).progress :=
  ⟨c3_amended.1 [.resize 1800 800, .load, .wheel 500 0, .frame],
   c3_amended.2 { sampleLoaded with limit := -100 } (by norm_num [sampleLoaded])⟩

/-- C5 (confirmed): with a fixed target and no further input (only
frames), for any ease in (0, 1] the position comes within any positive
epsilon of the target in finitely many frames and stays there; and the
error `target - position` never changes sign (its product with the
initial error is always nonnegative), so the position never overshoots. -/
theorem c5_convergence_no_overshoot (s : SysState) (ε : ℚ)
    (h0 : 0 < s.ease) (h1 : s.ease ≤ 1) (hε : 0 < ε) :
    (∃ N, ∀ n, N ≤ n → |s.target - (frame^[n] s).y| < ε) ∧
    ∀ n, 0 ≤ (s.target - (frame^[n] s).y) * (s.target - s.y) := by
  have herr : ∀ n, s.target - (frame^[n] s).y = (s.target - s.y) * (1 - s.ease) ^ n := by
    intro n
    rw [frame_iter_y]
    ring
  have hr0 : 0 ≤ 1 - s.ease := by linarith
  have hr1 : 1 - s.ease < 1 := by linarith
  constructor
  · obtain ⟨N, hN⟩ : ∃ n : ℕ, (1 - s.ease) ^ n < ε / (|s.target - s.y| + 1) :=
      exists_pow_lt_of_lt_one (by positivity) hr1
    refine ⟨N, fun n hn => ?_⟩
    rw [herr, abs_mul, abs_of_nonneg (pow_nonneg hr0 n)]
    calc |s.target - s.y| * (1 - s.ease) ^ n
        ≤ (|s.target - s.y| + 1) * (1 - s.ease) ^ N := by
          exact mul_le_mul (by linarith [abs_nonneg (s.target - s.y)])
            (pow_le_pow_of_le_one hr0 hr1.le hn) (pow_nonneg hr0 n) (by positivity)
      _ < (|s.target - s.y| + 1) * (ε / (|s.target - s.y| + 1)) :=
          mul_lt_mul_of_pos_left hN (by positivity)
      _ = ε := by field_simp
  · intro n
    rw [herr, show (s.target - s.y) * (1 - s.ease) ^ n * (s.target - s.y)
        = (s.target - s.y) ^ 2 * (1 - s.ease) ^ n by ring]
    exact mul_nonneg (sq_nonneg _) (pow_nonneg hr0 n)

/-- C5 (witness): convergence and no-overshoot at the concrete loaded
state (ease 0.08, target 800) with epsilon 1. -/
theorem c5_witness :
    (∃ N, ∀ n, N ≤ n → |sampleLoaded.target - (frame^[n] sampleLoaded).y| < 1) ∧
    ∀ n, 0 ≤ (sampleLoaded.target - (frame^[n] sampleLoaded).y)
        * (sampleLoaded.target - sampleLoaded.y) :=
  c5_convergence_no_overshoot sampleLoaded 1 (by norm_num [sampleLoaded])
    (by norm_num [sampleLoaded]) one_pos

/-- C8 (counterexample): a Home keydown on a loaded state is handled
(it sets the target to 0) yet does not call `preventDefault`, refuting
the claim that every handled keyboard scroll event prevents the
browser's native action. -/
theorem c8_counterexample :
    (keydownStep Key.home { sampleLoaded with target := 900 }).1.target = 0 ∧
    (keydownStep Key.home { sampleLoaded with target := 900 }).2 = false := by
  constructor <;> norm_num [keydownStep, sampleLoaded]

/-- C8 (amended): on a loaded state with a positive viewport height,
the keys map exactly as claimed (down-arrow +100, up-arrow -100,
page-down/space +0.8 viewport heights, page-up -0.8 viewport heights,
home to 0, end to limit), and `preventDefault` is called for the
amount-based keys (arrows, page keys, space) but not for Home or End. -/
theorem c8_amended (s : SysState) (hL : s.isLoaded = true) (hvh : 0 < s.innerHeight) :
    keydownStep Key.arrowDown s
      = ({ s with target := clamp0 (s.target + 100) s.limit }, true) ∧
    keydownStep Key.arrowUp s
      = ({ s with target := clamp0 (s.target + -100) s.limit }, true) ∧
    keydownStep Key.pageDown s
      = ({ s with target := clamp0 (s.target + s.innerHeight * (4/5)) s.limit }, true) ∧
    keydownStep Key.space s
      = ({ s with target := clamp0 (s.target + s.innerHeight * (4/5)) s.limit }, true) ∧
    keydownStep Key.pageUp s
      = ({ s with target := clamp0 (s.target + -(s.innerHeight * (4/5))) s.limit }, true) ∧
    keydownStep Key.home s = ({ s with target := 0 }, false) ∧
    keydownStep Key.keyEnd s = ({ s with target := s.limit }, false) := by
  have hamt : s.innerHeight * (4/5) ≠ 0 := by positivity
  have hamt2 : -(s.innerHeight * (4/5)) ≠ 0 := by simpa using hamt
  refine ⟨?_, ?_, ?_, ?_, ?_, ?_, ?_⟩ <;>
    norm_num [keydownStep, hL, hamt, hamt2]

/-- C8 (witness): the PageDown mapping and its `preventDefault` at the
concrete loaded state (viewport height 800). -/
theorem c8_witness :
    keydownStep Key.pageDown sampleLoaded
      = ({ sampleLoaded with
            target := clamp0 (sampleLoaded.target + sampleLoaded.innerHeight * (4/5))
              sampleLoaded.limit }, true) :=
  (c8_amended sampleLoaded rfl (by norm_num [sampleLoaded])).2.2.1

/-- GSAP easing `expo.in` as used by the rewind tween: 0 at 0, else
`2 ^ (10 * (p - 1))` (real exponent). -/
noncomputable def expoIn (p : ℝ) : ℝ :=
  if p = 0 then 0 else (2:ℝ) ^ ((10:ℝ) * (p - 1))

/-- GSAP easing `expo.inOut`, built from `expo.in` by the standard
in-out reflection: first half is `expoIn (2p) / 2`, second half is
`1 - expoIn (2(1-p)) / 2`. -/
noncomputable def expoInOut (p : ℝ) : ℝ :=
  if p < 1/2 then expoIn (2 * p) / 2 else 1 - expoIn (2 * (1 - p)) / 2

/-- A `gsap.to` tween of one numeric property: at eased fraction
`e p` of the duration the property reads
`v0 + (v1 - v0) * e p` (from its start value `v0` to the target
value `v1`). -/
noncomputable def gsapTween (v0 v1 : ℝ) (e : ℝ → ℝ) (p : ℝ) : ℝ :=
  v0 + (v1 - v0) * e p

/-- Position during the rewind tween (src/main.js lines 567-581:
`gsap.to(state.scroll, { target: 0, y: 0, duration: 3, ease:
"expo.inOut" })`): `y` is animated from `y0` to 0; `p` is elapsed
time over the 3-second duration. -/
noncomputable def rewindY (y0 p : ℝ) : ℝ := gsapTween y0 0 expoInOut p

/-- Target during the rewind tween: `target` is likewise animated
from `t0` to 0, not set to 0 at once. -/
noncomputable def rewindTarget (t0 p : ℝ) : ℝ := gsapTween t0 0 expoInOut p

lemma expoIn_zero : expoIn 0 = 0 := if_pos rfl

lemma expoIn_one : expoIn 1 = 1 := by
  unfold expoIn
  rw [if_neg one_ne_zero, show (10:ℝ) * (1 - 1) = 0 by ring, Real.rpow_zero]

lemma expoIn_le_one (p : ℝ) (hp : p ≤ 1) : expoIn p ≤ 1 := by
  unfold expoIn
  split
  · exact zero_le_one
  · exact Real.rpow_le_one_of_one_le_of_nonpos one_le_two (by linarith)

lemma expoIn_lt (x y : ℝ) (hx : 0 ≤ x) (hxy : x < y) : expoIn x < expoIn y := by
  unfold expoIn
  by_cases h0 : x = 0
  · rw [if_pos h0, if_neg (by linarith [hx.trans_lt hxy] : y ≠ 0)]
    exact Real.rpow_pos_of_pos two_pos _
  · have hx0 : 0 < x := lt_of_le_of_ne hx (Ne.symm h0)
    rw [if_neg h0, if_neg (lt_trans hx0 hxy).ne']
    exact (Real.rpow_lt_rpow_left_iff one_lt_two).mpr (by linarith)

lemma expoInOut_zero : expoInOut 0 = 0 := by
  unfold expoInOut
  rw [if_pos (by norm_num), show (2:ℝ) * 0 = 0 by ring, expoIn_zero]
  norm_num

lemma expoInOut_half : expoInOut (1/2) = 1/2 := by
  unfold expoInOut
  rw [if_neg (by norm_num), show (2:ℝ) * (1 - 1/2) = 1 by ring, expoIn_one]
  norm_num

lemma expoInOut_one : expoInOut 1 = 1 := by
  unfold expoInOut
  rw [if_neg (by norm_num), show (2:ℝ) * (1 - 1) = 0 by ring, expoIn_zero]
  norm_num

lemma expoInOut_strict (p q : ℝ) (hp : 0 ≤ p) (hpq : p < q) (hq : q ≤ 1) :
    expoInOut p < expoInOut q := by
  unfold expoInOut
  by_cases hq2 : q < 1/2
  · have hp2 : p < 1/2 := lt_trans hpq hq2
    rw [if_pos hp2, if_pos hq2]
    have := expoIn_lt (2 * p) (2 * q) (by linarith) (by linarith)
    linarith
  · rw [if_neg hq2]
    by_cases hp2 : p < 1/2
    · rw [if_pos hp2]
      have h1 : expoIn (2 * p) < expoIn 1 := expoIn_lt (2 * p) 1 (by linarith) (by linarith)
      rw [expoIn_one] at h1
      have h2 : expoIn (2 * (1 - q)) ≤ 1 := expoIn_le_one _ (by push_neg at hq2; linarith)
      linarith
    · rw [if_neg hp2]
      push_neg at hq2 hp2
      have := expoIn_lt (2 * (1 - q)) (2 * (1 - p)) (by linarith) (by linarith)
      linarith

/-- C4 (counterexample): when `rewind()` runs with `target = 900`, the
target is not set to 0 atomically — it is tweened: at the start of the
tween it is still 900 and halfway through the eased duration it is
450, not 0. -/
theorem c4_counterexample :
    rewindTarget 900 0 = 900 ∧ rewindTarget 900 (1/2) = 450 ∧
    ¬ rewindTarget 900 (1/2) = 0 := by
  refine ⟨?_, ?_, ?_⟩
  · unfold rewindTarget gsapTween
    rw [expoInOut_zero]
    ring
  · unfold rewindTarget gsapTween
    rw [expoInOut_half]
    ring
  · unfold rewindTarget gsapTween
    rw [expoInOut_half]
    norm_num

/-- C4 (amended): the rewind click tweens both `target` and the
position from 900 to 0 over the fixed 3-second duration with the
`expo.inOut` ease; the position strictly and monotonically decreases
over the tween, starting at 900 and reaching 0 (as does the target)
exactly at the end of the tween. -/
theorem c4_amended (p q : ℝ) (hp : 0 ≤ p) (hpq : p < q) (hq : q ≤ 1) :
    rewindY 900 q < rewindY 900 p ∧
    rewindY 900 0 = 900 ∧ rewindY 900 1 = 0 ∧ rewindTarget 900 1 = 0 := by
  refine ⟨?_, ?_, ?_, ?_⟩
  · unfold rewindY gsapTween
    have h := expoInOut_strict p q hp hpq hq
    nlinarith
  · unfold rewindY gsapTween
    rw [expoInOut_zero]
    ring
  · unfold rewindY gsapTween
    rw [expoInOut_one]
    ring
  · unfold rewindTarget gsapTween
    rw [expoInOut_one]
    ring

/-- C4 (witness): the tween facts at the endpoints of the duration. -/
theorem c4_witness :
    rewindY 900 1 < rewindY 900 0 ∧ rewindY 900 1 = 0 :=
  ⟨(c4_amended 0 1 le_rfl one_pos le_rfl).1, (c4_amended 0 1 le_rfl one_pos le_rfl).2.2.1⟩
